import Mathlib

/-!
Verification development for the `ia_vision_extension` repository: the
iterative vision-to-control loop (`main.py`, `ViewportAnalyzer.analyze_control`),
the camera delta application (`camera_control.py`,
`CameraControl.apply_translate_and_rotate_ai`), and the structured-output
validation of the chat-style client (`base_api.py` together with the pydantic
schema `AICameraParameters` of `shared_api.py`).

Modelling conventions:
* Python floats (USD `Gf.Vec3d` components, matrix entries) are modelled as
  exact rationals `ℚ`; floating-point rounding is not modelled.
* Python `int(x)` (truncation toward zero) is `pytrunc`.
* The running metric totals of the coordinator are Python floats accumulating
  `(f**2+u**2+r**2) ** 0.5`; they are modelled over `ℝ` with `Real.sqrt`.
* The USD stage is external to the repository.  The camera prim is modelled by
  the two attributes the code reads and writes (`xformOp:translate` and
  `xformOp:rotateXYZ`); each is `Option (Option Vec3)`: `none` means the
  attribute is missing/invalid, `some none` means it exists but `Get()`
  returns `None`, `some (some v)` means it holds the value `v`.
* `ComputeLocalToWorldTransform` is external USD functionality.  Only the
  rotational 3x3 block of its result is read (rows and columns 0..2), which is
  determined by the camera's orientation state (the `xformOp:rotateXYZ`
  attribute; parent transforms are fixed).  It is modelled as an environment
  parameter `env : Option (Option Vec3) → Mat3` mapping the rotation
  attribute's state to that 3x3 block.
-/

/-- Python `int(q)` on a real/float quantity: truncation toward zero
(the numerator `tdiv` the denominator, in lowest terms). -/
def pytrunc (q : ℚ) : ℤ := Int.tdiv q.num q.den

/-- Truncation toward zero is floor on nonnegatives and ceiling on
negatives. -/
theorem pytrunc_eq (q : ℚ) : pytrunc q = if 0 ≤ q then ⌊q⌋ else ⌈q⌉ := by
  unfold pytrunc
  split
  · next h =>
    rw [Rat.floor_def]
    exact Int.tdiv_eq_ediv (Rat.num_nonneg.mpr h) (Int.natCast_nonneg q.den)
  · next h =>
    have hq : ⌈q⌉ = -⌊-q⌋ := by rw [← Int.ceil_neg, neg_neg]
    have hn : 0 ≤ -q.num := by
      have h2 : ¬(0 : ℤ) ≤ q.num := fun hh => h (Rat.num_nonneg.mp hh)
      omega
    have e1 : (-q.num).tdiv q.den = -q.num / (q.den : ℤ) :=
      Int.tdiv_eq_ediv hn (Int.natCast_nonneg q.den)
    have e2 : ⌊-q⌋ = -q.num / (q.den : ℤ) := by
      rw [Rat.floor_def, Rat.num_neg_eq_neg_num, Rat.den_neg_eq_den]
    have e3 : q.num.tdiv (q.den : ℤ) = -((-q.num).tdiv q.den) := by
      rw [Int.neg_tdiv, neg_neg]
    rw [hq, e2, e3, e1]

theorem pytrunc_intCast (n : ℤ) : pytrunc ((n : ℤ) : ℚ) = n := by
  rw [pytrunc_eq]
  split <;> simp

theorem pytrunc_intValued (q : ℚ) (n : ℤ) (h : q = (n : ℚ)) : pytrunc q = n := by
  rw [h]
  exact pytrunc_intCast n

theorem pytrunc_intCast_add (a b : ℤ) : pytrunc ((a : ℚ) + (b : ℚ)) = a + b := by
  rw [← Int.cast_add]
  exact pytrunc_intCast (a + b)

theorem pytrunc_intCast_add_neg (a b : ℤ) :
    pytrunc ((a : ℚ) + -(b : ℚ)) = a - b := by
  rw [show (a : ℚ) + -(b : ℚ) = ((a - b : ℤ) : ℚ) by push_cast; ring]
  exact pytrunc_intCast (a - b)

theorem pytrunc_q0 : pytrunc (0 : ℚ) = 0 := pytrunc_intValued 0 0 (by norm_num)

theorem pytrunc_q1 : pytrunc (1 : ℚ) = 1 := pytrunc_intValued 1 1 (by norm_num)

theorem pytrunc_qneg1 : pytrunc (-1 : ℚ) = -1 := pytrunc_intValued (-1) (-1) (by norm_num)

theorem pytrunc_q100 : pytrunc (100 : ℚ) = 100 :=
  pytrunc_intValued 100 100 (by norm_num)

theorem pytrunc_qneg100 : pytrunc (-100 : ℚ) = -100 :=
  pytrunc_intValued (-100) (-100) (by norm_num)

theorem pytrunc_qhalf : pytrunc (1 / 2 : ℚ) = 0 := by
  rw [pytrunc_eq, if_pos (by norm_num), Int.floor_eq_iff]
  norm_num

theorem pytrunc_neg (q : ℚ) : pytrunc (-q) = -pytrunc q := by
  rw [pytrunc_eq, pytrunc_eq]
  rcases lt_trichotomy q 0 with h | h | h
  · rw [if_pos (by linarith), if_neg (not_le.mpr h), Int.floor_neg]
  · subst h
    norm_num
  · rw [if_neg (not_le.mpr (by linarith)), if_pos (le_of_lt h), Int.ceil_neg]

theorem abs_sub_pytrunc_le_one (q : ℚ) : |q - ((pytrunc q : ℤ) : ℚ)| ≤ 1 := by
  rw [pytrunc_eq]
  split
  · rw [abs_of_nonneg (by linarith [Int.floor_le q])]
    have := Int.lt_floor_add_one q
    linarith
  · rw [abs_of_nonpos (by linarith [Int.le_ceil q])]
    have := Int.ceil_lt_add_one q
    linarith

/-- A `Gf.Vec3d` value (components modelled as exact rationals). -/
structure Vec3 where
  x : ℚ
  y : ℚ
  z : ℚ
deriving DecidableEq

instance : Neg Vec3 := ⟨fun v => ⟨-v.x, -v.y, -v.z⟩⟩

theorem Vec3.neg_def (v : Vec3) : -v = ⟨-v.x, -v.y, -v.z⟩ := rfl

/-- The rotational 3x3 block of a `Gf.Matrix4d` (row-major, row-vector
convention, as indexed by the source: `M[i][j]`). -/
structure Mat3 where
  m00 : ℚ
  m01 : ℚ
  m02 : ℚ
  m10 : ℚ
  m11 : ℚ
  m12 : ℚ
  m20 : ℚ
  m21 : ℚ
  m22 : ℚ
deriving DecidableEq

/-- The matrix product of `camera_control.py` lines 74-76:
`world_j = M[0][j]*v0 + M[1][j]*v1 + M[2][j]*v2`. -/
def worldVec (M : Mat3) (v : Vec3) : Vec3 :=
  ⟨M.m00 * v.x + M.m10 * v.y + M.m20 * v.z,
   M.m01 * v.x + M.m11 * v.y + M.m21 * v.z,
   M.m02 * v.x + M.m12 * v.y + M.m22 * v.z⟩

def idMat3 : Mat3 := ⟨1, 0, 0, 0, 1, 0, 0, 0, 1⟩

theorem worldVec_neg (M : Mat3) (v : Vec3) : worldVec M (-v) = -(worldVec M v) := by
  simp only [worldVec, Vec3.neg_def, Vec3.mk.injEq]
  refine ⟨by ring, by ring, by ring⟩

/-- The pydantic schema `AICameraParameters` of `shared_api.py` (lines 30-43):
`explanation` is the only field without a declared default. -/
structure AICameraParameters where
  answer : Option String := none
  done : Bool := false
  explanation : String
  forward : ℤ := 0
  upward : ℤ := 0
  right : ℤ := 0
  pitch : ℤ := 0
  yaw : ℤ := 0
deriving DecidableEq

/-- The inverse delta of a command: all five numeric fields negated. -/
def neg_delta (p : AICameraParameters) : AICameraParameters :=
  { p with forward := -p.forward, upward := -p.upward, right := -p.right,
           pitch := -p.pitch, yaw := -p.yaw }

/-- The camera prim state observed and mutated by `camera_control.py`:
the `xformOp:translate` and `xformOp:rotateXYZ` attributes. -/
structure CameraState where
  t_attr : Option (Option Vec3)
  r_attr : Option (Option Vec3)
deriving DecidableEq

/-- `current_t = t_attr.Get(); if current_t is None: current_t = Gf.Vec3d(0,0,0)`
(also the value used right after `AddTranslateOp` creates a fresh op). -/
def current_translation (cam : CameraState) : Vec3 :=
  match cam.t_attr with
  | some (some v) => v
  | _ => ⟨0, 0, 0⟩

/-- `camera_control.py` lines 34-46: `move_left = -right`, `move_up = upward`,
`move_forward = forward`, then `local_vector = Gf.Vec3d(-move_left, move_up,
-move_forward)`; the intermediate names are substituted in place here. -/
def local_vector (p : AICameraParameters) : Vec3 :=
  ⟨((-(-p.right) : ℤ) : ℚ), ((p.upward : ℤ) : ℚ), ((-p.forward : ℤ) : ℚ)⟩

/-- Modelled from the spec: "Converts the command's camera-local movement
vector `(-right, upward, -forward)` into world space" — the local vector as
the specification words it, to be compared with `local_vector` above. -/
def spec_local_vector (p : AICameraParameters) : Vec3 :=
  ⟨((-p.right : ℤ) : ℚ), ((p.upward : ℤ) : ℚ), ((-p.forward : ℤ) : ℚ)⟩

/-- The new `xformOp:translate` value computed by `camera_control.py`
lines 66-83: truncated current translation plus truncated world-space image of
`local_vector` under the camera's current local-to-world rotational block. -/
def trans_result (env : Option (Option Vec3) → Mat3) (cam : CameraState)
    (p : AICameraParameters) : Vec3 :=
  let current_t := current_translation cam
  let w := worldVec (env cam.r_attr) (local_vector p)
  ⟨((pytrunc current_t.x + pytrunc w.x : ℤ) : ℚ),
   ((pytrunc current_t.y + pytrunc w.y : ℤ) : ℚ),
   ((pytrunc current_t.z + pytrunc w.z : ℤ) : ℚ)⟩

/-- `camera_control.py` lines 58-86 (the translation block): guarded by any of
the three movement components being nonzero; creates the translate op on
demand (so the attribute afterwards holds a value in every case). -/
def translate_stage (env : Option (Option Vec3) → Mat3) (cam : CameraState)
    (p : AICameraParameters) : CameraState :=
  if 0 < |(-p.right : ℤ)| ∨ 0 < |(p.upward : ℤ)| ∨ 0 < |(p.forward : ℤ)| then
    { cam with t_attr := some (some (trans_result env cam p)) }
  else cam

/-- `camera_control.py` lines 89-103 (the rotation block): guarded by a
nonzero rotation delta AND an existing `xformOp:rotateXYZ` attribute holding a
value; otherwise the rotation delta is silently skipped. -/
def rotate_stage (cam : CameraState) (p : AICameraParameters) : CameraState :=
  if 0 < |(p.pitch : ℤ)| ∨ 0 < |(-p.yaw : ℤ)| then
    match cam.r_attr with
    | some (some current_r) =>
        { cam with r_attr := some (some
            ⟨((pytrunc current_r.x + p.pitch : ℤ) : ℚ),
             ((pytrunc current_r.y : ℤ) : ℚ),
             ((pytrunc current_r.z + -p.yaw : ℤ) : ℚ)⟩) }
    | _ => cam
  else cam

/-- `CameraControl.apply_translate_and_rotate_ai`: the translation block runs
first (reading the local-to-world transform of the pre-call state), then the
rotation block. -/
def apply_translate_and_rotate_ai (env : Option (Option Vec3) → Mat3)
    (cam : CameraState) (p : AICameraParameters) : CameraState :=
  rotate_stage (translate_stage env cam p) p

/-- The translation guard of line 59 holds exactly when some movement
component is nonzero. -/
theorem move_cond_iff (p : AICameraParameters) :
    (0 < |(-p.right : ℤ)| ∨ 0 < |(p.upward : ℤ)| ∨ 0 < |(p.forward : ℤ)|) ↔
      ¬(p.right = 0 ∧ p.upward = 0 ∧ p.forward = 0) := by
  simp only [abs_pos, neg_ne_zero]
  tauto

/-- The rotation guard of line 90 holds exactly when pitch or yaw is nonzero. -/
theorem rot_cond_iff (p : AICameraParameters) :
    (0 < |(p.pitch : ℤ)| ∨ 0 < |(-p.yaw : ℤ)|) ↔ ¬(p.pitch = 0 ∧ p.yaw = 0) := by
  simp only [abs_pos, neg_ne_zero]
  tauto

theorem rotate_stage_t_attr (cam : CameraState) (p : AICameraParameters) :
    (rotate_stage cam p).t_attr = cam.t_attr := by
  unfold rotate_stage
  split
  · split <;> rfl
  · rfl

theorem translate_stage_r_attr (env : Option (Option Vec3) → Mat3)
    (cam : CameraState) (p : AICameraParameters) :
    (translate_stage env cam p).r_attr = cam.r_attr := by
  unfold translate_stage
  split <;> rfl

theorem translate_stage_t_attr (env : Option (Option Vec3) → Mat3)
    (cam : CameraState) (p : AICameraParameters) :
    (translate_stage env cam p).t_attr =
      if p.right = 0 ∧ p.upward = 0 ∧ p.forward = 0 then cam.t_attr
      else some (some (trans_result env cam p)) := by
  unfold translate_stage
  by_cases h : p.right = 0 ∧ p.upward = 0 ∧ p.forward = 0
  · rw [if_neg (by rw [move_cond_iff]; exact not_not_intro h), if_pos h]
  · rw [if_pos ((move_cond_iff p).mpr h), if_neg h]

/-- The rotation value written by lines 98-103, with the `z` delta written as
it is computed there: `watch_left = -yaw` added to the truncated current `z`. -/
def rot_result (cr : Vec3) (p : AICameraParameters) : Vec3 :=
  ⟨((pytrunc cr.x + p.pitch : ℤ) : ℚ),
   ((pytrunc cr.y : ℤ) : ℚ),
   ((pytrunc cr.z + -p.yaw : ℤ) : ℚ)⟩

theorem rotate_stage_r_attr (cam : CameraState) (p : AICameraParameters) :
    (rotate_stage cam p).r_attr =
      if p.pitch = 0 ∧ p.yaw = 0 then cam.r_attr
      else
        match cam.r_attr with
        | some (some cr) => some (some (rot_result cr p))
        | x => x := by
  unfold rotate_stage
  by_cases h : p.pitch = 0 ∧ p.yaw = 0
  · rw [if_neg (by rw [rot_cond_iff]; exact not_not_intro h), if_pos h]
  · rw [if_pos ((rot_cond_iff p).mpr h), if_neg h]
    rcases hr : cam.r_attr with _ | (_ | cr) <;> simp [hr, rot_result]

theorem apply_t_attr (env : Option (Option Vec3) → Mat3) (cam : CameraState)
    (p : AICameraParameters) :
    (apply_translate_and_rotate_ai env cam p).t_attr =
      if p.right = 0 ∧ p.upward = 0 ∧ p.forward = 0 then cam.t_attr
      else some (some (trans_result env cam p)) := by
  unfold apply_translate_and_rotate_ai
  rw [rotate_stage_t_attr, translate_stage_t_attr]

theorem apply_r_attr (env : Option (Option Vec3) → Mat3) (cam : CameraState)
    (p : AICameraParameters) :
    (apply_translate_and_rotate_ai env cam p).r_attr =
      if p.pitch = 0 ∧ p.yaw = 0 then cam.r_attr
      else
        match cam.r_attr with
        | some (some cr) => some (some (rot_result cr p))
        | x => x := by
  unfold apply_translate_and_rotate_ai
  rw [rotate_stage_r_attr, translate_stage_r_attr]

theorem local_vector_eq (p : AICameraParameters) :
    local_vector p = ⟨((p.right : ℤ) : ℚ), ((p.upward : ℤ) : ℚ), ((-p.forward : ℤ) : ℚ)⟩ := by
  unfold local_vector
  simp

theorem local_vector_neg_delta (p : AICameraParameters) :
    local_vector (neg_delta p) = -(local_vector p) := by
  unfold local_vector neg_delta
  simp only [Vec3.neg_def, Vec3.mk.injEq]
  refine ⟨by push_cast; ring, by push_cast; ring, by push_cast; ring⟩

/-- Componentwise check that an attribute holds a value within 1 unit per axis
of the truncation of `v` — the error bound of the round-trip property. -/
def within_one (a : Option (Option Vec3)) (v : Vec3) : Prop :=
  match a with
  | some (some w) =>
      |w.x - ((pytrunc v.x : ℤ) : ℚ)| ≤ 1 ∧
      |w.y - ((pytrunc v.y : ℤ) : ℚ)| ≤ 1 ∧
      |w.z - ((pytrunc v.z : ℤ) : ℚ)| ≤ 1
  | _ => False

/-!
The coordinator `ViewportAnalyzer.analyze_control` (`main.py` lines 65-174).

The two external collaborators of one loop iteration are oracles indexed by
the 1-based iteration counter `i`:
* `capture i` — the value of `await self.capturer.save_async()`; Python treats
  both `None` and the empty string as a failed capture (`if not img_path`),
  so `none` and `some ""` both take the error return.
* `respond i` — the outcome of `await self.ai.call_vision_llm_async(...)`:
  `.ok` a validated `AICameraParameters`, or `.error` a validation/transport
  failure, which the coordinator does not catch, so it propagates out of the
  whole call (modelled by the `Except` result of the loop).
`elapsed_time` (wall-clock) and `initial_cam_parameters` (a serialization of
the pre-loop pose, read before any movement) do not interact with any claim
and are left out of the result record.
-/

/-- The three result dictionaries of `analyze_control`: `status` `"done"`
(lines 137-146), `"error"`/`"screenshot_failed"` (lines 112-120), and
`"max_iters_reached"` (lines 166-174).  The final camera state is carried so
that theorems can speak about the movement actually effected. -/
inductive AnalyzeResult where
  | done (answer : Option String) (final_explanation : String) (iterations : ℕ)
      (total_translation total_rotation : ℝ) (cam : CameraState)
  | screenshot_failed (iterations : ℕ)
      (total_translation total_rotation : ℝ) (cam : CameraState)
  | max_iters_reached (last_explanation : String) (iterations : ℕ)
      (total_translation total_rotation : ℝ) (cam : CameraState)

def AnalyzeResult.status : AnalyzeResult → String
  | .done .. => "done"
  | .screenshot_failed .. => "error"
  | .max_iters_reached .. => "max_iters_reached"

def AnalyzeResult.iterations : AnalyzeResult → ℕ
  | .done _ _ n _ _ _ => n
  | .screenshot_failed n _ _ _ => n
  | .max_iters_reached _ n _ _ _ => n

def AnalyzeResult.total_translation : AnalyzeResult → ℝ
  | .done _ _ _ tt _ _ => tt
  | .screenshot_failed _ tt _ _ => tt
  | .max_iters_reached _ _ tt _ _ => tt

def AnalyzeResult.total_rotation : AnalyzeResult → ℝ
  | .done _ _ _ _ tr _ => tr
  | .screenshot_failed _ _ tr _ => tr
  | .max_iters_reached _ _ _ tr _ => tr

def AnalyzeResult.last_explanation : AnalyzeResult → Option String
  | .max_iters_reached e _ _ _ _ => some e
  | _ => none

/-- The `for i in range(1, max_iters + 1)` loop body of `analyze_control`,
with `fuel` remaining iterations and `i` the current 1-based index; `last`
is the Python loop variable `ai_response` from the previous iteration (only
read after the loop ends, i.e. in the fuel-0 base case, where the last
completed index is `i - 1`).  The accumulators mirror lines 150-154:
`total_translation += (forward**2 + upward**2 + right**2) ** 0.5` and
`total_rotation += abs(pitch) + abs(yaw)`. -/
noncomputable def analyze_go (env : Option (Option Vec3) → Mat3)
    (capture : ℕ → Option String)
    (respond : ℕ → Except String AICameraParameters) :
    ℕ → ℕ → CameraState → ℝ → ℝ → AICameraParameters →
      Except String AnalyzeResult
  | 0, i, cam, tt, tr, last =>
      .ok (.max_iters_reached last.explanation (i - 1) tt tr cam)
  | n + 1, i, cam, tt, tr, _ =>
      match capture i with
      | none => .ok (.screenshot_failed i tt tr cam)
      | some img =>
          if img = "" then .ok (.screenshot_failed i tt tr cam)
          else
            match respond i with
            | .error e => .error e
            | .ok resp =>
                if resp.done then
                  .ok (.done resp.answer resp.explanation i tt tr cam)
                else
                  analyze_go env capture respond n (i + 1)
                    (apply_translate_and_rotate_ai env cam resp)
                    (tt + Real.sqrt ((resp.forward : ℝ) ^ 2 +
                      (resp.upward : ℝ) ^ 2 + (resp.right : ℝ) ^ 2))
                    (tr + ((|resp.pitch| + |resp.yaw| : ℤ) : ℝ)) resp

/-- `main.py` line 84: the loop enters with no previous action; the `last`
argument is only ever read after at least one iteration has stored a real
response, so any placeholder serves. -/
def first_step_placeholder : AICameraParameters := { explanation := "" }

/-- `analyze_control`: 10 iterations (`max_iters = 10`, line 82), starting at
iteration 1, with both totals initialized to `0.0` (lines 88-89). -/
noncomputable def analyze_control (env : Option (Option Vec3) → Mat3)
    (capture : ℕ → Option String)
    (respond : ℕ → Except String AICameraParameters)
    (cam0 : CameraState) : Except String AnalyzeResult :=
  analyze_go env capture respond 10 1 cam0 0 0 first_step_placeholder

def except_status : Except String AnalyzeResult → Option String
  | .ok R => some R.status
  | .error _ => none

def except_iterations : Except String AnalyzeResult → Option ℕ
  | .ok R => some R.iterations
  | .error _ => none

def except_last_explanation : Except String AnalyzeResult → Option String
  | .ok R => R.last_explanation
  | .error _ => none

/-- The total-translation of an `.ok` outcome, with a fallback for `.error`
(used to state monotonicity without binders). -/
def ok_total_translation (dflt : ℝ) : Except String AnalyzeResult → ℝ
  | .ok R => R.total_translation
  | .error _ => dflt

def ok_total_rotation (dflt : ℝ) : Except String AnalyzeResult → ℝ
  | .ok R => R.total_rotation
  | .error _ => dflt

/-- One non-terminal iteration: successful capture, validated not-done
response; the totals grow by the step magnitudes and the delta is applied. -/
theorem analyze_go_step (env : Option (Option Vec3) → Mat3)
    (capture : ℕ → Option String)
    (respond : ℕ → Except String AICameraParameters)
    (n i : ℕ) (cam : CameraState) (tt tr : ℝ) (last : AICameraParameters)
    (s : String) (resp : AICameraParameters)
    (hcap : capture i = some s) (hs : s ≠ "")
    (hresp : respond i = .ok resp) (hdone : resp.done = false) :
    analyze_go env capture respond (n + 1) i cam tt tr last =
      analyze_go env capture respond n (i + 1)
        (apply_translate_and_rotate_ai env cam resp)
        (tt + Real.sqrt ((resp.forward : ℝ) ^ 2 + (resp.upward : ℝ) ^ 2 +
          (resp.right : ℝ) ^ 2))
        (tr + ((|resp.pitch| + |resp.yaw| : ℤ) : ℝ)) resp := by
  rw [analyze_go, hcap]
  simp only [hresp, hdone]
  rw [if_neg hs]
  simp

/-- The totals carried into any loop state bound the totals of any normal
outcome from below: they only ever grow. -/
theorem analyze_go_ok_le (env : Option (Option Vec3) → Mat3)
    (capture : ℕ → Option String)
    (respond : ℕ → Except String AICameraParameters) :
    ∀ (n i : ℕ) (cam : CameraState) (tt tr : ℝ) (last : AICameraParameters)
      (R : AnalyzeResult),
      analyze_go env capture respond n i cam tt tr last = .ok R →
      tt ≤ R.total_translation ∧ tr ≤ R.total_rotation := by
  intro n
  induction n with
  | zero =>
    intro i cam tt tr last R h
    rw [analyze_go] at h
    injection h with h2
    subst h2
    exact ⟨le_refl tt, le_refl tr⟩
  | succ n ih =>
    intro i cam tt tr last R h
    rw [analyze_go] at h
    cases hcap : capture i with
    | none =>
      rw [hcap] at h
      injection h with h2
      subst h2
      exact ⟨le_refl tt, le_refl tr⟩
    | some s =>
      rw [hcap] at h
      simp only at h
      by_cases hs : s = ""
      · rw [if_pos hs] at h
        injection h with h2
        subst h2
        exact ⟨le_refl tt, le_refl tr⟩
      · rw [if_neg hs] at h
        cases hresp : respond i with
        | error e =>
          rw [hresp] at h
          exact absurd h (by simp)
        | ok resp =>
          rw [hresp] at h
          simp only at h
          by_cases hd : resp.done = true
          · rw [if_pos hd] at h
            injection h with h2
            subst h2
            exact ⟨le_refl tt, le_refl tr⟩
          · rw [if_neg hd] at h
            have hrec := ih (i + 1) (apply_translate_and_rotate_ai env cam resp)
              (tt + Real.sqrt ((resp.forward : ℝ) ^ 2 + (resp.upward : ℝ) ^ 2 +
                (resp.right : ℝ) ^ 2))
              (tr + ((|resp.pitch| + |resp.yaw| : ℤ) : ℝ)) resp R h
            constructor
            · exact le_trans (le_add_of_nonneg_right (Real.sqrt_nonneg _)) hrec.1
            · refine le_trans (le_add_of_nonneg_right ?_) hrec.2
              have : (0 : ℤ) ≤ |resp.pitch| + |resp.yaw| := by positivity
              exact_mod_cast this

/-- If every iteration in the window `[i, i+n]` captures successfully and the
validated response is never `done`, the loop runs out of fuel and reports
`max_iters_reached` with the last iteration's index and explanation. -/
theorem analyze_go_exhaust (env : Option (Option Vec3) → Mat3)
    (capture : ℕ → Option String)
    (respond : ℕ → Except String AICameraParameters)
    (resp : ℕ → AICameraParameters) :
    ∀ (n i : ℕ) (cam : CameraState) (tt tr : ℝ) (last : AICameraParameters),
      (∀ j, i ≤ j → j ≤ i + n →
        (∃ s, capture j = some s ∧ s ≠ "") ∧
          respond j = .ok (resp j) ∧ (resp j).done = false) →
      ∃ tt' tr' cam',
        analyze_go env capture respond (n + 1) i cam tt tr last =
          .ok (.max_iters_reached ((resp (i + n)).explanation) (i + n)
            tt' tr' cam') := by
  intro n
  induction n with
  | zero =>
    intro i cam tt tr last h
    obtain ⟨⟨s, hcap, hs⟩, hresp, hdone⟩ := h i (le_refl i) (by omega)
    refine ⟨tt + Real.sqrt (((resp i).forward : ℝ) ^ 2 + ((resp i).upward : ℝ) ^ 2 +
        ((resp i).right : ℝ) ^ 2),
      tr + ((|(resp i).pitch| + |(resp i).yaw| : ℤ) : ℝ),
      apply_translate_and_rotate_ai env cam (resp i), ?_⟩
    rw [analyze_go_step env capture respond 0 i cam tt tr last s (resp i)
      hcap hs hresp hdone]
    rw [analyze_go]
    simp
  | succ n ih =>
    intro i cam tt tr last h
    obtain ⟨⟨s, hcap, hs⟩, hresp, hdone⟩ := h i (le_refl i) (by omega)
    obtain ⟨tt', tr', cam', hrec⟩ := ih (i + 1)
      (apply_translate_and_rotate_ai env cam (resp i))
      (tt + Real.sqrt (((resp i).forward : ℝ) ^ 2 + ((resp i).upward : ℝ) ^ 2 +
        ((resp i).right : ℝ) ^ 2))
      (tr + ((|(resp i).pitch| + |(resp i).yaw| : ℤ) : ℝ)) (resp i)
      (fun j hj1 hj2 => h j (by omega) (by omega))
    refine ⟨tt', tr', cam', ?_⟩
    rw [analyze_go_step env capture respond (n + 1) i cam tt tr last s (resp i)
      hcap hs hresp hdone]
    have hidx : i + 1 + n = i + (n + 1) := by omega
    rw [hidx] at hrec
    exact hrec

/-!
Structured-output validation (`base_api.py` lines 106-113).

The chat-style client feeds the raw response text to
`AICameraParameters.model_validate_json`, re-raising `ValidationError`.  The
validation semantics belong to the pydantic library (external to the
repository); what the repository determines is the schema itself
(`shared_api.py` lines 30-43): `explanation` is the only field without a
default.  The model below reproduces pydantic-v2 default behavior for that
schema at the level of an already-parsed JSON object: a field that is absent
falls back to its declared default (absence of `explanation` is an error),
a present field must carry a value of the declared scalar type, and keys that
are not part of the model are ignored (pydantic's default `extra` policy).
Pydantic's lax string/number coercions (e.g. `"5"` accepted for an `int`
field) are not modelled; no theorem or counterexample below exercises them.
-/

/-- A scalar JSON value (the subset the schema's fields range over). -/
inductive JVal where
  | jnull
  | jbool (b : Bool)
  | jint (n : ℤ)
  | jstr (s : String)
deriving DecidableEq

/-- A parsed JSON object: association list of keys to scalar values. -/
abbrev JObj : Type := List (String × JVal)

def getField (o : JObj) (k : String) : Option JVal :=
  (o.find? (fun kv => kv.1 == k)).map (fun kv => kv.2)

/-- Field `answer: Optional[str] = None`. -/
def v_opt_str : Option JVal → Except String (Option String)
  | none => .ok none
  | some .jnull => .ok none
  | some (.jstr s) => .ok (some s)
  | some _ => .error "answer: input should be a valid string or null"

/-- Field `done: bool = False`. -/
def v_bool : Option JVal → Except String Bool
  | none => .ok false
  | some (.jbool b) => .ok b
  | some _ => .error "done: input should be a valid boolean"

/-- Field `explanation: str` — required, no default. -/
def v_req_str : Option JVal → Except String String
  | none => .error "explanation: field required"
  | some (.jstr s) => .ok s
  | some _ => .error "explanation: input should be a valid string"

/-- The five `int = 0` movement fields. -/
def v_int : Option JVal → Except String ℤ
  | none => .ok 0
  | some (.jint n) => .ok n
  | some _ => .error "input should be a valid integer"

/-- Object-level validation of `AICameraParameters` (pydantic
`model_validate` on the already-parsed object). -/
def model_validate (o : JObj) : Except String AICameraParameters := do
  let answer ← v_opt_str (getField o "answer")
  let done ← v_bool (getField o "done")
  let explanation ← v_req_str (getField o "explanation")
  let forward ← v_int (getField o "forward")
  let upward ← v_int (getField o "upward")
  let right ← v_int (getField o "right")
  let pitch ← v_int (getField o "pitch")
  let yaw ← v_int (getField o "yaw")
  return { answer := answer, done := done, explanation := explanation,
           forward := forward, upward := upward, right := right,
           pitch := pitch, yaw := yaw }

def ok_opt_str : Option JVal → Bool
  | none => true
  | some .jnull => true
  | some (.jstr _) => true
  | some _ => false

def ok_bool : Option JVal → Bool
  | none => true
  | some (.jbool _) => true
  | some _ => false

def ok_req_str : Option JVal → Bool
  | some (.jstr _) => true
  | _ => false

def ok_int : Option JVal → Bool
  | none => true
  | some (.jint _) => true
  | some _ => false

/-- The shape condition under which validation succeeds: `explanation`
present as a string, every other known key well-typed IF present; unknown
keys play no role. -/
def schema_ok (o : JObj) : Bool :=
  ok_opt_str (getField o "answer") && ok_bool (getField o "done") &&
  ok_req_str (getField o "explanation") && ok_int (getField o "forward") &&
  ok_int (getField o "upward") && ok_int (getField o "right") &&
  ok_int (getField o "pitch") && ok_int (getField o "yaw")

def except_is_ok {α : Type} : Except String α → Bool
  | .ok _ => true
  | .error _ => false

theorem v_opt_str_is_ok (x : Option JVal) :
    except_is_ok (v_opt_str x) = ok_opt_str x := by
  rcases x with _ | v
  · rfl
  · cases v <;> rfl

theorem v_bool_is_ok (x : Option JVal) :
    except_is_ok (v_bool x) = ok_bool x := by
  rcases x with _ | v
  · rfl
  · cases v <;> rfl

theorem v_req_str_is_ok (x : Option JVal) :
    except_is_ok (v_req_str x) = ok_req_str x := by
  rcases x with _ | v
  · rfl
  · cases v <;> rfl

theorem v_int_is_ok (x : Option JVal) :
    except_is_ok (v_int x) = ok_int x := by
  rcases x with _ | v
  · rfl
  · cases v <;> rfl

theorem model_validate_is_ok (o : JObj) :
    except_is_ok (model_validate o) = schema_ok o := by
  unfold model_validate schema_ok
  rw [← v_opt_str_is_ok (getField o "answer"), ← v_bool_is_ok (getField o "done"),
    ← v_req_str_is_ok (getField o "explanation"),
    ← v_int_is_ok (getField o "forward"), ← v_int_is_ok (getField o "upward"),
    ← v_int_is_ok (getField o "right"), ← v_int_is_ok (getField o "pitch"),
    ← v_int_is_ok (getField o "yaw")]
  cases v_opt_str (getField o "answer") <;>
    cases v_bool (getField o "done") <;>
    cases v_req_str (getField o "explanation") <;>
    cases v_int (getField o "forward") <;>
    cases v_int (getField o "upward") <;>
    cases v_int (getField o "right") <;>
    cases v_int (getField o "pitch") <;>
    cases v_int (getField o "yaw") <;>
    rfl

/-!
Concrete inputs used by witnesses and counterexamples.
-/

def env_id : Option (Option Vec3) → Mat3 := fun _ => idMat3

def capture_const : ℕ → Option String := fun _ => some "frame.png"

def cam_w : CameraState := ⟨some (some ⟨0, 0, 0⟩), some (some ⟨0, 0, 0⟩)⟩

def cmd_done : AICameraParameters :=
  { answer := some "red", done := true, explanation := "the car is visible" }

def respond_done : ℕ → Except String AICameraParameters := fun _ => .ok cmd_done

def cmd_move : AICameraParameters := { explanation := "move", forward := 3, upward := 4 }

def respond_move : ℕ → Except String AICameraParameters := fun _ => .ok cmd_move

def cmd_rot : AICameraParameters := { explanation := "turn", pitch := 30, yaw := -20 }

def respond_rot : ℕ → Except String AICameraParameters := fun _ => .ok cmd_rot

/-- `cam_no_rot` has a translate attribute but no `xformOp:rotateXYZ`. -/
def cam_no_rot : CameraState := ⟨some (some ⟨0, 0, 0⟩), none⟩

/-- C1: whenever an iteration `i` of the analyze loop receives a command with
`done = true` (after a successful capture), the loop returns at that very
iteration with the `done` result: the command's `answer` and `explanation`
verbatim, `iterations = i`, the totals exactly as accumulated by the
iterations before `i`, and the camera state untouched by iteration `i` (no
delta is applied). -/
theorem c1_done_short_circuit (env : Option (Option Vec3) → Mat3)
    (capture : ℕ → Option String)
    (respond : ℕ → Except String AICameraParameters)
    (n i : ℕ) (cam : CameraState) (tt tr : ℝ) (last : AICameraParameters)
    (s : String) (resp : AICameraParameters)
    (hcap : capture i = some s) (hs : s ≠ "")
    (hresp : respond i = .ok resp) (hdone : resp.done = true) :
    analyze_go env capture respond (n + 1) i cam tt tr last =
      .ok (.done resp.answer resp.explanation i tt tr cam) := by
  rw [analyze_go, hcap]
  simp only [hresp, hdone]
  rw [if_neg hs]
  simp

theorem c1_done_short_circuit_witness :
    analyze_go env_id capture_const respond_done 10 1 cam_w 0 0
      first_step_placeholder =
      .ok (.done (some "red") "the car is visible" 1 0 0 cam_w) :=
  c1_done_short_circuit env_id capture_const respond_done 9 1 cam_w 0 0
    first_step_placeholder "frame.png" cmd_done rfl (by decide) rfl rfl

/-- C2: a non-terminal (`done = false`) iteration adds exactly
`sqrt(forward² + upward² + right²)` to `total_translation` and exactly
`|pitch| + |yaw|` to `total_rotation` before the delta is applied, and the
totals entering any loop state bound every normal outcome's totals from
below, so both are monotonically non-decreasing across the iterations of one
run. -/
theorem c2_totals_accumulate (env : Option (Option Vec3) → Mat3)
    (capture : ℕ → Option String)
    (respond : ℕ → Except String AICameraParameters)
    (n i : ℕ) (cam : CameraState) (tt tr : ℝ) (last : AICameraParameters)
    (s : String) (resp : AICameraParameters)
    (hcap : capture i = some s) (hs : s ≠ "")
    (hresp : respond i = .ok resp) (hdone : resp.done = false) :
    analyze_go env capture respond (n + 1) i cam tt tr last =
      analyze_go env capture respond n (i + 1)
        (apply_translate_and_rotate_ai env cam resp)
        (tt + Real.sqrt ((resp.forward : ℝ) ^ 2 + (resp.upward : ℝ) ^ 2 +
          (resp.right : ℝ) ^ 2))
        (tr + ((|resp.pitch| + |resp.yaw| : ℤ) : ℝ)) resp ∧
    tt ≤ ok_total_translation tt
      (analyze_go env capture respond (n + 1) i cam tt tr last) ∧
    tr ≤ ok_total_rotation tr
      (analyze_go env capture respond (n + 1) i cam tt tr last) := by
  refine ⟨analyze_go_step env capture respond n i cam tt tr last s resp
    hcap hs hresp hdone, ?_, ?_⟩
  · cases hres : analyze_go env capture respond (n + 1) i cam tt tr last with
    | error e => simp [ok_total_translation]
    | ok R =>
      simp only [ok_total_translation]
      exact (analyze_go_ok_le env capture respond (n + 1) i cam tt tr last R hres).1
  · cases hres : analyze_go env capture respond (n + 1) i cam tt tr last with
    | error e => simp [ok_total_rotation]
    | ok R =>
      simp only [ok_total_rotation]
      exact (analyze_go_ok_le env capture respond (n + 1) i cam tt tr last R hres).2

theorem c2_totals_accumulate_witness :
    analyze_go env_id capture_const respond_move 1 1 cam_w 0 0
      first_step_placeholder =
      analyze_go env_id capture_const respond_move 0 2
        (apply_translate_and_rotate_ai env_id cam_w cmd_move)
        (0 + Real.sqrt ((cmd_move.forward : ℝ) ^ 2 + (cmd_move.upward : ℝ) ^ 2 +
          (cmd_move.right : ℝ) ^ 2))
        (0 + ((|cmd_move.pitch| + |cmd_move.yaw| : ℤ) : ℝ)) cmd_move ∧
    (0 : ℝ) ≤ ok_total_translation 0
      (analyze_go env_id capture_const respond_move 1 1 cam_w 0 0
        first_step_placeholder) ∧
    (0 : ℝ) ≤ ok_total_rotation 0
      (analyze_go env_id capture_const respond_move 1 1 cam_w 0 0
        first_step_placeholder) :=
  c2_totals_accumulate env_id capture_const respond_move 0 1 cam_w 0 0
    first_step_placeholder "frame.png" cmd_move rfl (by decide) rfl rfl

/-- C7: when every capture of a run succeeds and the model never returns
`done = true`, `analyze_control` stops after exactly `max_iters = 10`
iterations with the `max_iters_reached` result, reporting `iterations = 10`
and the 10th command's explanation as the last explanation. -/
theorem c7_exhausted (env : Option (Option Vec3) → Mat3)
    (capture : ℕ → Option String)
    (respond : ℕ → Except String AICameraParameters)
    (resp : ℕ → AICameraParameters) (cam0 : CameraState)
    (h : ∀ j, 1 ≤ j → j ≤ 10 →
      (∃ s, capture j = some s ∧ s ≠ "") ∧
        respond j = .ok (resp j) ∧ (resp j).done = false) :
    except_status (analyze_control env capture respond cam0) =
      some "max_iters_reached" ∧
    except_iterations (analyze_control env capture respond cam0) = some 10 ∧
    except_last_explanation (analyze_control env capture respond cam0) =
      some ((resp 10).explanation) := by
  obtain ⟨tt', tr', cam', heq⟩ := analyze_go_exhaust env capture respond resp
    9 1 cam0 0 0 first_step_placeholder (fun j h1 h2 => h j h1 (by omega))
  norm_num at heq
  unfold analyze_control
  rw [heq]
  simp [except_status, except_iterations, except_last_explanation,
    AnalyzeResult.status, AnalyzeResult.iterations, AnalyzeResult.last_explanation]

theorem c7_exhausted_witness :
    except_status (analyze_control env_id capture_const respond_move cam_w) =
      some "max_iters_reached" ∧
    except_iterations (analyze_control env_id capture_const respond_move cam_w) =
      some 10 ∧
    except_last_explanation
      (analyze_control env_id capture_const respond_move cam_w) =
      some (cmd_move.explanation) :=
  c7_exhausted env_id capture_const respond_move (fun _ => cmd_move) cam_w
    (fun j h1 h2 => ⟨⟨"frame.png", rfl, by decide⟩, rfl, rfl⟩)

/-- C10: in a non-terminal iteration the totals are updated from the
command's own fields, independently of what the camera mutation achieves:
even when the camera has no `xformOp:rotateXYZ` attribute, so the rotation
delta is silently skipped and the attribute stays absent, `total_rotation`
still grows by `|pitch| + |yaw|` — the totals measure commanded movement,
not movement actually effected. -/
theorem c10_totals_measure_commands (env : Option (Option Vec3) → Mat3)
    (capture : ℕ → Option String)
    (respond : ℕ → Except String AICameraParameters)
    (n i : ℕ) (cam : CameraState) (tt tr : ℝ) (last : AICameraParameters)
    (s : String) (resp : AICameraParameters)
    (hcap : capture i = some s) (hs : s ≠ "")
    (hresp : respond i = .ok resp) (hdone : resp.done = false)
    (hrot : cam.r_attr = none) :
    analyze_go env capture respond (n + 1) i cam tt tr last =
      analyze_go env capture respond n (i + 1)
        (apply_translate_and_rotate_ai env cam resp)
        (tt + Real.sqrt ((resp.forward : ℝ) ^ 2 + (resp.upward : ℝ) ^ 2 +
          (resp.right : ℝ) ^ 2))
        (tr + ((|resp.pitch| + |resp.yaw| : ℤ) : ℝ)) resp ∧
    (apply_translate_and_rotate_ai env cam resp).r_attr = none := by
  refine ⟨analyze_go_step env capture respond n i cam tt tr last s resp
    hcap hs hresp hdone, ?_⟩
  rw [apply_r_attr, hrot]
  simp

theorem c10_totals_measure_commands_witness :
    analyze_go env_id capture_const respond_rot 1 1 cam_no_rot 0 0
      first_step_placeholder =
      analyze_go env_id capture_const respond_rot 0 2
        (apply_translate_and_rotate_ai env_id cam_no_rot cmd_rot)
        (0 + Real.sqrt ((cmd_rot.forward : ℝ) ^ 2 + (cmd_rot.upward : ℝ) ^ 2 +
          (cmd_rot.right : ℝ) ^ 2))
        (0 + ((|cmd_rot.pitch| + |cmd_rot.yaw| : ℤ) : ℝ)) cmd_rot ∧
    (apply_translate_and_rotate_ai env_id cam_no_rot cmd_rot).r_attr = none :=
  c10_totals_measure_commands env_id capture_const respond_rot 0 1 cam_no_rot
    0 0 first_step_placeholder "frame.png" cmd_rot rfl (by decide) rfl rfl rfl

def cmd_right1 : AICameraParameters := { explanation := "", right := 1 }

def cmd_yaw1 : AICameraParameters := { explanation := "", yaw := 1 }

def cmd_zero : AICameraParameters := { explanation := "hold" }

def cmd_mix : AICameraParameters := { explanation := "", forward := 2, pitch := 5 }

/-- A camera whose rotation attribute holds `(0, 1/2, 0)`: integer-truncating
the roll component is observable. -/
def cam_roll_half : CameraState := ⟨some (some ⟨0, 0, 0⟩), some (some ⟨0, 1/2, 0⟩)⟩

/-- A camera with neither attribute present. -/
def cam_bare : CameraState := ⟨none, none⟩

/-- C3 counterexample: with `right = 1` (all else zero) and the identity
basis, the code moves the camera to `(+1, 0, 0)` — the camera-local vector
actually formed is `(right, upward, -forward)`, because `move_left = -right`
is negated again when composing `(-move_left, move_up, -move_forward)`; the
spec's vector `(-right, upward, -forward)` would have produced `(-1, 0, 0)`. -/
theorem c3_counterexample :
    (apply_translate_and_rotate_ai env_id cam_no_rot cmd_right1).t_attr =
      some (some ⟨1, 0, 0⟩) ∧
    worldVec (env_id cam_no_rot.r_attr) (spec_local_vector cmd_right1) =
      ⟨-1, 0, 0⟩ ∧
    (apply_translate_and_rotate_ai env_id cam_no_rot cmd_right1).t_attr ≠
      some (some ⟨-1, 0, 0⟩) := by
  have hA : (apply_translate_and_rotate_ai env_id cam_no_rot cmd_right1).t_attr =
      some (some ⟨1, 0, 0⟩) := by
    rw [apply_t_attr, if_neg (by decide)]
    norm_num [trans_result, current_translation, local_vector, worldVec, env_id,
      idMat3, cam_no_rot, cmd_right1, pytrunc_q0, pytrunc_q1, Vec3.mk.injEq]
  refine ⟨hA, ?_, ?_⟩
  · norm_num [worldVec, env_id, idMat3, spec_local_vector, cmd_right1,
      cam_no_rot, Vec3.mk.injEq]
  · rw [hA]
    simp only [ne_eq, Option.some.injEq, Vec3.mk.injEq]
    norm_num

/-- C3 (amended): for a nonzero translation delta, the written translation is
the truncated current translation plus the truncated world-space image — under
the rotational block of the camera's current local-to-world transform — of the
camera-local vector `(right, upward, -forward)` (not `(-right, ...)`: the two
negations on `right` cancel). -/
theorem c3_translation_amended (env : Option (Option Vec3) → Mat3)
    (cam : CameraState) (p : AICameraParameters)
    (h : p.right ≠ 0 ∨ p.upward ≠ 0 ∨ p.forward ≠ 0) :
    (apply_translate_and_rotate_ai env cam p).t_attr =
      some (some
        ⟨((pytrunc (current_translation cam).x +
            pytrunc (worldVec (env cam.r_attr)
              ⟨((p.right : ℤ) : ℚ), ((p.upward : ℤ) : ℚ),
               ((-p.forward : ℤ) : ℚ)⟩).x : ℤ) : ℚ),
         ((pytrunc (current_translation cam).y +
            pytrunc (worldVec (env cam.r_attr)
              ⟨((p.right : ℤ) : ℚ), ((p.upward : ℤ) : ℚ),
               ((-p.forward : ℤ) : ℚ)⟩).y : ℤ) : ℚ),
         ((pytrunc (current_translation cam).z +
            pytrunc (worldVec (env cam.r_attr)
              ⟨((p.right : ℤ) : ℚ), ((p.upward : ℤ) : ℚ),
               ((-p.forward : ℤ) : ℚ)⟩).z : ℤ) : ℚ)⟩) := by
  rw [apply_t_attr, if_neg (by tauto)]
  unfold trans_result
  rw [local_vector_eq]

theorem c3_translation_amended_witness :
    (apply_translate_and_rotate_ai env_id cam_w cmd_right1).t_attr =
      some (some
        ⟨((pytrunc (current_translation cam_w).x +
            pytrunc (worldVec (env_id cam_w.r_attr)
              ⟨((cmd_right1.right : ℤ) : ℚ), ((cmd_right1.upward : ℤ) : ℚ),
               ((-cmd_right1.forward : ℤ) : ℚ)⟩).x : ℤ) : ℚ),
         ((pytrunc (current_translation cam_w).y +
            pytrunc (worldVec (env_id cam_w.r_attr)
              ⟨((cmd_right1.right : ℤ) : ℚ), ((cmd_right1.upward : ℤ) : ℚ),
               ((-cmd_right1.forward : ℤ) : ℚ)⟩).y : ℤ) : ℚ),
         ((pytrunc (current_translation cam_w).z +
            pytrunc (worldVec (env_id cam_w.r_attr)
              ⟨((cmd_right1.right : ℤ) : ℚ), ((cmd_right1.upward : ℤ) : ℚ),
               ((-cmd_right1.forward : ℤ) : ℚ)⟩).z : ℤ) : ℚ)⟩) :=
  c3_translation_amended env_id cam_w cmd_right1 (Or.inl (by decide))

/-- C4 counterexample: with `yaw = 1` (pitch 0) on a camera whose rotation is
`(0, 1/2, 0)`, the code writes `(0, 0, -1)`: the Z component receives
`watch_left = -yaw`, i.e. yaw is subtracted, and the roll component is
truncated from `1/2` to `0` rather than left unchanged; the claim's predicted
value `(0, 1/2, 1)` is not written. -/
theorem c4_counterexample :
    (apply_translate_and_rotate_ai env_id cam_roll_half cmd_yaw1).r_attr =
      some (some ⟨0, 0, -1⟩) ∧
    (apply_translate_and_rotate_ai env_id cam_roll_half cmd_yaw1).r_attr ≠
      some (some ⟨0, 1/2, 1⟩) := by
  have hA : (apply_translate_and_rotate_ai env_id cam_roll_half cmd_yaw1).r_attr =
      some (some ⟨0, 0, -1⟩) := by
    rw [apply_r_attr, if_neg (by decide)]
    norm_num [cam_roll_half, rot_result, cmd_yaw1, pytrunc_q0, pytrunc_qhalf,
      Vec3.mk.injEq]
  refine ⟨hA, ?_⟩
  rw [hA]
  simp only [ne_eq, Option.some.injEq, Vec3.mk.injEq]
  norm_num

/-- C4 (amended): for a nonzero rotation delta on a camera whose `rotateXYZ`
attribute holds `r`, the written rotation is `pitch` added to the truncated X
component, `yaw` SUBTRACTED from the truncated Z component, and the Y (roll)
component truncated with no delta added. -/
theorem c4_rotation_amended (env : Option (Option Vec3) → Mat3)
    (cam : CameraState) (p : AICameraParameters) (r : Vec3)
    (hr : cam.r_attr = some (some r)) (h : p.pitch ≠ 0 ∨ p.yaw ≠ 0) :
    (apply_translate_and_rotate_ai env cam p).r_attr =
      some (some ⟨((pytrunc r.x + p.pitch : ℤ) : ℚ),
        ((pytrunc r.y : ℤ) : ℚ), ((pytrunc r.z - p.yaw : ℤ) : ℚ)⟩) := by
  rw [apply_r_attr, if_neg (by tauto), hr]
  simp [rot_result, Int.sub_eq_add_neg]

theorem c4_rotation_amended_witness :
    (apply_translate_and_rotate_ai env_id cam_w cmd_rot).r_attr =
      some (some ⟨((pytrunc (0 : ℚ) + cmd_rot.pitch : ℤ) : ℚ),
        ((pytrunc (0 : ℚ) : ℤ) : ℚ),
        ((pytrunc (0 : ℚ) - cmd_rot.yaw : ℤ) : ℚ)⟩) :=
  c4_rotation_amended env_id cam_w cmd_rot ⟨0, 0, 0⟩ rfl (Or.inl (by decide))

/-- C8: with the rotation attribute missing or unset, a delta with nonzero
pitch/yaw leaves the rotation exactly as it was (no operator is created, no
failure — the source guards the write on `r_attr and r_attr.IsValid() and
r_attr.Get() is not None`), while a nonzero translation part is still applied
correctly; the translate op, in contrast, is created on demand, so the
translation attribute afterwards holds the computed value even if it was
absent before. -/
theorem c8_rotation_skipped (env : Option (Option Vec3) → Mat3)
    (cam : CameraState) (p : AICameraParameters)
    (hr : cam.r_attr = none ∨ cam.r_attr = some none) :
    (apply_translate_and_rotate_ai env cam p).r_attr = cam.r_attr ∧
    ((p.right ≠ 0 ∨ p.upward ≠ 0 ∨ p.forward ≠ 0) →
      (apply_translate_and_rotate_ai env cam p).t_attr =
        some (some (trans_result env cam p))) := by
  constructor
  · rw [apply_r_attr]
    rcases hr with hr | hr <;> rw [hr] <;> simp
  · intro h
    rw [apply_t_attr, if_neg (by tauto)]

theorem c8_rotation_skipped_witness :
    (apply_translate_and_rotate_ai env_id cam_bare cmd_mix).r_attr =
      cam_bare.r_attr ∧
    ((cmd_mix.right ≠ 0 ∨ cmd_mix.upward ≠ 0 ∨ cmd_mix.forward ≠ 0) →
      (apply_translate_and_rotate_ai env_id cam_bare cmd_mix).t_attr =
        some (some (trans_result env_id cam_bare cmd_mix))) :=
  c8_rotation_skipped env_id cam_bare cmd_mix (Or.inl rfl)

/-- C9: the translation attribute is written only when some movement
component is nonzero and the rotation attribute only when pitch or yaw is
nonzero: a rotation-only call leaves translation untouched, a
translation-only call leaves rotation untouched, and an all-zero delta is a
no-op on the whole camera state. -/
theorem c9_independence (env : Option (Option Vec3) → Mat3)
    (cam : CameraState) (p : AICameraParameters) :
    ((p.right = 0 ∧ p.upward = 0 ∧ p.forward = 0) →
      (apply_translate_and_rotate_ai env cam p).t_attr = cam.t_attr) ∧
    ((p.pitch = 0 ∧ p.yaw = 0) →
      (apply_translate_and_rotate_ai env cam p).r_attr = cam.r_attr) ∧
    ((p.right = 0 ∧ p.upward = 0 ∧ p.forward = 0 ∧ p.pitch = 0 ∧ p.yaw = 0) →
      apply_translate_and_rotate_ai env cam p = cam) := by
  refine ⟨fun h => ?_, fun h => ?_, fun h => ?_⟩
  · rw [apply_t_attr, if_pos h]
  · rw [apply_r_attr, if_pos h]
  · obtain ⟨h1, h2, h3, h4, h5⟩ := h
    have e1 : (apply_translate_and_rotate_ai env cam p).t_attr = cam.t_attr := by
      rw [apply_t_attr, if_pos ⟨h1, h2, h3⟩]
    have e2 : (apply_translate_and_rotate_ai env cam p).r_attr = cam.r_attr := by
      rw [apply_r_attr, if_pos ⟨h4, h5⟩]
    have eta : apply_translate_and_rotate_ai env cam p =
        ⟨(apply_translate_and_rotate_ai env cam p).t_attr,
         (apply_translate_and_rotate_ai env cam p).r_attr⟩ := rfl
    rw [eta, e1, e2]

theorem c9_independence_witness :
    ((cmd_zero.right = 0 ∧ cmd_zero.upward = 0 ∧ cmd_zero.forward = 0) →
      (apply_translate_and_rotate_ai env_id cam_w cmd_zero).t_attr =
        cam_w.t_attr) ∧
    ((cmd_zero.pitch = 0 ∧ cmd_zero.yaw = 0) →
      (apply_translate_and_rotate_ai env_id cam_w cmd_zero).r_attr =
        cam_w.r_attr) ∧
    ((cmd_zero.right = 0 ∧ cmd_zero.upward = 0 ∧ cmd_zero.forward = 0 ∧
        cmd_zero.pitch = 0 ∧ cmd_zero.yaw = 0) →
      apply_translate_and_rotate_ai env_id cam_w cmd_zero = cam_w) :=
  c9_independence env_id cam_w cmd_zero

/-- The rotational block of the camera's local-to-world transform after a
`rotateXYZ` of `(90, 0, 0)` (USD/Gf row-vector convention: row `i` is the
image of the `i`-th camera axis; a +90° pitch sends the local y-axis to z and
the local z-axis to -y). -/
def mat_rx90 : Mat3 := ⟨1, 0, 0, 0, 0, 1, 0, -1, 0⟩

/-- An orientation environment agreeing with the true USD basis at the two
rotation states a 90°-pitch step passes through: identity at `(0,0,0)` and
`mat_rx90` at `(90,0,0)`. -/
def env_pitch : Option (Option Vec3) → Mat3 := fun r =>
  if r = some (some ⟨90, 0, 0⟩) then mat_rx90 else idMat3

def cmd_fwd_pitch : AICameraParameters :=
  { explanation := "", forward := 100, pitch := 90 }

/-- C5 counterexample: starting at the origin with zero rotation, the delta
`forward = 100, pitch = 90` followed by its negation leaves the camera at
`(0, -100, -100)`: the reverse translation is evaluated in the basis of the
already-pitched camera, so it does not retrace the original move.  The error
against the pre-delta truncated pose `(0,0,0)` is 100 per axis, not ≤ 1. -/
theorem c5_counterexample :
    (apply_translate_and_rotate_ai env_pitch
        (apply_translate_and_rotate_ai env_pitch cam_w cmd_fwd_pitch)
        (neg_delta cmd_fwd_pitch)).t_attr = some (some ⟨0, -100, -100⟩) ∧
    ¬ within_one (apply_translate_and_rotate_ai env_pitch
        (apply_translate_and_rotate_ai env_pitch cam_w cmd_fwd_pitch)
        (neg_delta cmd_fwd_pitch)).t_attr ⟨0, 0, 0⟩ ∧
    cam_w.t_attr = some (some ⟨0, 0, 0⟩) := by
  have hA_t : (apply_translate_and_rotate_ai env_pitch cam_w cmd_fwd_pitch).t_attr =
      some (some ⟨0, 0, -100⟩) := by
    rw [apply_t_attr, if_neg (by decide)]
    norm_num [trans_result, current_translation, local_vector, worldVec, cam_w,
      cmd_fwd_pitch, env_pitch, idMat3, Option.some.injEq, Vec3.mk.injEq,
      pytrunc_q0, pytrunc_qneg100]
  have hA_r : (apply_translate_and_rotate_ai env_pitch cam_w cmd_fwd_pitch).r_attr =
      some (some ⟨90, 0, 0⟩) := by
    rw [apply_r_attr, if_neg (by decide)]
    norm_num [cam_w, rot_result, cmd_fwd_pitch, pytrunc_q0, Vec3.mk.injEq]
  have hB_t : (apply_translate_and_rotate_ai env_pitch
      (apply_translate_and_rotate_ai env_pitch cam_w cmd_fwd_pitch)
      (neg_delta cmd_fwd_pitch)).t_attr = some (some ⟨0, -100, -100⟩) := by
    rw [apply_t_attr, if_neg (by decide)]
    have hcur : current_translation
        (apply_translate_and_rotate_ai env_pitch cam_w cmd_fwd_pitch) =
        ⟨0, 0, -100⟩ := by
      unfold current_translation
      rw [hA_t]
    unfold trans_result
    rw [hcur, hA_r]
    norm_num [env_pitch, mat_rx90, local_vector, neg_delta, cmd_fwd_pitch,
      worldVec, Vec3.mk.injEq, pytrunc_q0, pytrunc_q100, pytrunc_qneg100]
  refine ⟨hB_t, ?_, rfl⟩
  rw [hB_t]
  intro hcontra
  simp only [within_one] at hcontra
  rcases hcontra with ⟨h1, h2, h3⟩
  norm_num [pytrunc_q0] at h2

/-- C5 (amended): provided the camera's local-to-world basis is the same at
both calls (`henv` — in particular whenever the delta carries no rotation, or
the basis is constant), a delta followed by its negation returns the
translation exactly to the pre-delta truncated translation when a translation
was applied (error 0), and leaves it within 1 of it when not; the rotation
attribute likewise returns to within 1 of the truncated pre-delta rotation
(exactly when a rotation was applied).  Without `henv` the bound fails
(see the counterexample). -/
theorem c5_roundtrip_amended (env : Option (Option Vec3) → Mat3)
    (cam : CameraState) (p : AICameraParameters) (t r : Vec3)
    (ht : cam.t_attr = some (some t)) (hr : cam.r_attr = some (some r))
    (henv : env (apply_translate_and_rotate_ai env cam p).r_attr =
      env cam.r_attr) :
    within_one (apply_translate_and_rotate_ai env
      (apply_translate_and_rotate_ai env cam p) (neg_delta p)).t_attr t ∧
    within_one (apply_translate_and_rotate_ai env
      (apply_translate_and_rotate_ai env cam p) (neg_delta p)).r_attr r := by
  have hTneg : ((neg_delta p).right = 0 ∧ (neg_delta p).upward = 0 ∧
      (neg_delta p).forward = 0) ↔
      (p.right = 0 ∧ p.upward = 0 ∧ p.forward = 0) := by
    simp [neg_delta]
  have hRneg : ((neg_delta p).pitch = 0 ∧ (neg_delta p).yaw = 0) ↔
      (p.pitch = 0 ∧ p.yaw = 0) := by
    simp [neg_delta]
  have hcam_t : current_translation cam = t := by
    unfold current_translation
    rw [ht]
  constructor
  · by_cases hT : p.right = 0 ∧ p.upward = 0 ∧ p.forward = 0
    · have e1 : (apply_translate_and_rotate_ai env cam p).t_attr = cam.t_attr := by
        rw [apply_t_attr, if_pos hT]
      have e2 : (apply_translate_and_rotate_ai env
          (apply_translate_and_rotate_ai env cam p) (neg_delta p)).t_attr =
          (apply_translate_and_rotate_ai env cam p).t_attr := by
        rw [apply_t_attr, if_pos (hTneg.mpr hT)]
      rw [e2, e1, ht]
      simp only [within_one]
      exact ⟨abs_sub_pytrunc_le_one t.x, abs_sub_pytrunc_le_one t.y,
        abs_sub_pytrunc_le_one t.z⟩
    · have e1 : (apply_translate_and_rotate_ai env cam p).t_attr =
          some (some (trans_result env cam p)) := by
        rw [apply_t_attr, if_neg hT]
      have e2 : (apply_translate_and_rotate_ai env
          (apply_translate_and_rotate_ai env cam p) (neg_delta p)).t_attr =
          some (some (trans_result env
            (apply_translate_and_rotate_ai env cam p) (neg_delta p))) := by
        rw [apply_t_attr, if_neg (fun hh => hT (hTneg.mp hh))]
      have hcurA : current_translation (apply_translate_and_rotate_ai env cam p) =
          trans_result env cam p := by
        unfold current_translation
        rw [e1]
      have hw : worldVec (env (apply_translate_and_rotate_ai env cam p).r_attr)
          (local_vector (neg_delta p)) =
          -(worldVec (env cam.r_attr) (local_vector p)) := by
        rw [henv, local_vector_neg_delta, worldVec_neg]
      have e3 : trans_result env (apply_translate_and_rotate_ai env cam p)
          (neg_delta p) =
          ⟨((pytrunc t.x : ℤ) : ℚ), ((pytrunc t.y : ℤ) : ℚ),
           ((pytrunc t.z : ℤ) : ℚ)⟩ := by
        simp only [trans_result]
        rw [hcurA, hw]
        simp only [trans_result]
        rw [hcam_t]
        simp only [Vec3.neg_def, Vec3.mk.injEq, pytrunc_intCast_add,
          pytrunc_intCast_add_neg, pytrunc_neg, pytrunc_intCast]
        refine ⟨by push_cast; ring, by push_cast; ring, by push_cast; ring⟩
      rw [e2, e3]
      simp only [within_one]
      refine ⟨?_, ?_, ?_⟩ <;> simp
  · by_cases hR : p.pitch = 0 ∧ p.yaw = 0
    · have e1 : (apply_translate_and_rotate_ai env cam p).r_attr = cam.r_attr := by
        rw [apply_r_attr, if_pos hR]
      have e2 : (apply_translate_and_rotate_ai env
          (apply_translate_and_rotate_ai env cam p) (neg_delta p)).r_attr =
          (apply_translate_and_rotate_ai env cam p).r_attr := by
        rw [apply_r_attr, if_pos (hRneg.mpr hR)]
      rw [e2, e1, hr]
      simp only [within_one]
      exact ⟨abs_sub_pytrunc_le_one r.x, abs_sub_pytrunc_le_one r.y,
        abs_sub_pytrunc_le_one r.z⟩
    · have e1 : (apply_translate_and_rotate_ai env cam p).r_attr =
          some (some (rot_result r p)) := by
        rw [apply_r_attr, if_neg hR, hr]
      have e2 : (apply_translate_and_rotate_ai env
          (apply_translate_and_rotate_ai env cam p) (neg_delta p)).r_attr =
          some (some (rot_result (rot_result r p) (neg_delta p))) := by
        rw [apply_r_attr, if_neg (fun hh => hR (hRneg.mp hh)), e1]
      have e3 : rot_result (rot_result r p) (neg_delta p) =
          ⟨((pytrunc r.x : ℤ) : ℚ), ((pytrunc r.y : ℤ) : ℚ),
           ((pytrunc r.z : ℤ) : ℚ)⟩ := by
        simp [rot_result, neg_delta, Vec3.mk.injEq, pytrunc_intCast_add,
          pytrunc_intCast_add_neg, pytrunc_intCast]
      rw [e2, e3]
      simp only [within_one]
      refine ⟨?_, ?_, ?_⟩ <;> simp
  
theorem c5_roundtrip_amended_witness :
    within_one (apply_translate_and_rotate_ai env_id
      (apply_translate_and_rotate_ai env_id cam_w cmd_move)
      (neg_delta cmd_move)).t_attr ⟨0, 0, 0⟩ ∧
    within_one (apply_translate_and_rotate_ai env_id
      (apply_translate_and_rotate_ai env_id cam_w cmd_move)
      (neg_delta cmd_move)).r_attr ⟨0, 0, 0⟩ :=
  c5_roundtrip_amended env_id cam_w cmd_move ⟨0, 0, 0⟩ ⟨0, 0, 0⟩ rfl rfl rfl

def obj_missing_extra : JObj := [("explanation", JVal.jstr "e"), ("bogus", JVal.jint 3)]

/-- C6 counterexample: an object that is missing every defaulted key (`done`,
`forward`, ...) and carries the extraneous key `bogus` still validates
successfully — the declared defaults fill in and the unknown key is ignored —
so validation does NOT raise "whenever keys are missing ... or extraneous". -/
theorem c6_counterexample :
    getField obj_missing_extra "done" = none ∧
    getField obj_missing_extra "forward" = none ∧
    getField obj_missing_extra "bogus" = some (JVal.jint 3) ∧
    model_validate obj_missing_extra =
      .ok { answer := none, done := false, explanation := "e", forward := 0,
            upward := 0, right := 0, pitch := 0, yaw := 0 } :=
  ⟨rfl, rfl, rfl, rfl⟩

/-- C6 (amended): the chat-style client validates the response object against
the schema, and validation succeeds exactly when `explanation` is present as
a string and every present known key carries a value of its declared type;
keys with declared defaults may be absent (the default fills in) and unknown
keys are ignored.  A validation failure raised by the client is not caught by
the coordinator: the whole analyze loop fails with that error. -/
theorem c6_validation_and_propagation (o : JObj)
    (env : Option (Option Vec3) → Mat3) (capture : ℕ → Option String)
    (respond : ℕ → Except String AICameraParameters) (e : String)
    (n i : ℕ) (cam : CameraState) (tt tr : ℝ) (last : AICameraParameters)
    (s : String) (hcap : capture i = some s) (hs : s ≠ "")
    (herr : respond i = .error e) :
    except_is_ok (model_validate o) = schema_ok o ∧
    analyze_go env capture respond (n + 1) i cam tt tr last = .error e := by
  refine ⟨model_validate_is_ok o, ?_⟩
  rw [analyze_go, hcap]
  simp only [herr]
  rw [if_neg hs]

def respond_invalid : ℕ → Except String AICameraParameters :=
  fun _ => .error "explanation: field required"

theorem c6_validation_and_propagation_witness :
    except_is_ok (model_validate obj_missing_extra) =
      schema_ok obj_missing_extra ∧
    analyze_go env_id capture_const respond_invalid 10 1 cam_w 0 0
      first_step_placeholder = .error "explanation: field required" :=
  c6_validation_and_propagation obj_missing_extra env_id capture_const
    respond_invalid "explanation: field required" 9 1 cam_w 0 0
    first_step_placeholder "frame.png" rfl (by decide) rfl
